import Mathlib

/-!
Shallow embedding of the msitrace interop layer (src/ffi.rs, src/lib.rs,
src/bin/msitrace.rs) and proofs about it.

The native Windows Installer engine is external to the repository; every
engine entry point is modelled as an oracle parameter.  For the two-call
growable-buffer string retrieval (MsiRecordGetString / MsiFormatRecord)
the oracle maps the capacity passed in the in/out length parameter to a
reply: a status code, the value written back into the length parameter,
and the bytes the engine wrote into the caller's buffer.  Rust `String`
values obtained from the engine are modelled as their UTF-8 byte lists;
`String::from_utf8` becomes a validity check that keeps the exact bytes.
Each embedded operation also returns the list of engine calls it issued,
so that call-ordering claims can be stated.
-/

namespace Msitrace

/-- ERROR_SUCCESS from src/ffi.rs line 9. -/
def ERROR_SUCCESS : Nat := 0

/-- ERROR_MORE_DATA from src/ffi.rs line 10. -/
def ERROR_MORE_DATA : Nat := 234

/-- MSI_NULL_INTEGER from src/ffi.rs line 11: the i32 value -0x8000_0000. -/
def MSI_NULL_INTEGER : Int := -0x80000000

/-- Reply of one MsiRecordGetString / MsiFormatRecord engine call:
the returned status code, the value the engine stores through the in/out
length pointer, and the bytes the engine writes into the caller buffer. -/
structure GetStringReply where
  ret : Nat
  len : Nat
  buf : List Nat
deriving DecidableEq

/-- Contents of a caller buffer of capacity `cap`, initialised to zeros
(`vec![0; cap]`), after the engine wrote `written` at its start. -/
def bufferAfter (cap : Nat) (written : List Nat) : List Nat :=
  (written ++ List.replicate cap 0).take cap

/-- Whether a byte is a UTF-8 continuation byte (0x80..=0xBF). -/
def isUtf8Cont (b : Nat) : Bool :=
  0x80 ≤ b && b ≤ 0xBF

/-- UTF-8 validity of a byte list, following the table used by Rust
`String::from_utf8` (RFC 3629: overlong forms, surrogates and values
above U+10FFFF rejected). -/
def utf8Valid : List Nat → Bool
  | [] => true
  | b :: rest =>
    if b ≤ 0x7F then
      utf8Valid rest
    else if 0xC2 ≤ b && b ≤ 0xDF then
      match rest with
      | c1 :: r => isUtf8Cont c1 && utf8Valid r
      | [] => false
    else if b = 0xE0 then
      match rest with
      | c1 :: c2 :: r => (0xA0 ≤ c1 && c1 ≤ 0xBF) && isUtf8Cont c2 && utf8Valid r
      | _ => false
    else if (0xE1 ≤ b && b ≤ 0xEC) || b = 0xEE || b = 0xEF then
      match rest with
      | c1 :: c2 :: r => isUtf8Cont c1 && isUtf8Cont c2 && utf8Valid r
      | _ => false
    else if b = 0xED then
      match rest with
      | c1 :: c2 :: r => (0x80 ≤ c1 && c1 ≤ 0x9F) && isUtf8Cont c2 && utf8Valid r
      | _ => false
    else if b = 0xF0 then
      match rest with
      | c1 :: c2 :: c3 :: r =>
          (0x90 ≤ c1 && c1 ≤ 0xBF) && isUtf8Cont c2 && isUtf8Cont c3 && utf8Valid r
      | _ => false
    else if 0xF1 ≤ b && b ≤ 0xF3 then
      match rest with
      | c1 :: c2 :: c3 :: r =>
          isUtf8Cont c1 && isUtf8Cont c2 && isUtf8Cont c3 && utf8Valid r
      | _ => false
    else if b = 0xF4 then
      match rest with
      | c1 :: c2 :: c3 :: r =>
          (0x80 ≤ c1 && c1 ≤ 0x8F) && isUtf8Cont c2 && isUtf8Cont c3 && utf8Valid r
      | _ => false
    else
      false

/-- Model of Rust `String::from_utf8`: keeps the exact bytes when they are
valid UTF-8, fails otherwise. -/
def from_utf8 (bs : List Nat) : Option (List Nat) :=
  if utf8Valid bs then some bs else none

/-- Result of a fallible string retrieval, mirroring the crate error type
(src/lib.rs): `errorCode` is ErrorKind::ErrorCode carrying the raw engine
status; `utf8Error` is ErrorKind::Other wrapping a FromUtf8Error. -/
inductive StrResult
  | ok (bytes : List Nat)
  | errorCode (code : Nat)
  | utf8Error
deriving DecidableEq

/-- Record::string_data (src/ffi.rs lines 71-104), instrumented with the
list of engine calls issued, each as (handle, field, capacity).  First call
passes a zero-capacity buffer; anything but ERROR_MORE_DATA is an error.
Second call passes a buffer of the reported length + 1 (u32 addition, hence
the mod 2^32); anything but ERROR_SUCCESS is an error.  The buffer is then
truncated to the length reported by the second call and UTF-8 decoded. -/
def string_data (h field : Nat) (o : Nat → GetStringReply) :
    StrResult × List (Nat × Nat × Nat) :=
  let r1 := o 0
  if r1.ret ≠ ERROR_MORE_DATA then
    (.errorCode r1.ret, [(h, field, 0)])
  else
    let cap := (r1.len + 1) % 2 ^ 32
    let r2 := o cap
    if r2.ret ≠ ERROR_SUCCESS then
      (.errorCode r2.ret, [(h, field, 0), (h, field, cap)])
    else
      let bytes := (bufferAfter cap r2.buf).take r2.len
      match from_utf8 bytes with
      | some s => (.ok s, [(h, field, 0), (h, field, cap)])
      | none => (.utf8Error, [(h, field, 0), (h, field, cap)])

/-- Record::integer_data (src/ffi.rs lines 109-116): reads the raw i32 from
MsiRecordGetInteger (modelled by the oracle `getInteger`) and maps the exact
sentinel MSI_NULL_INTEGER to None, every other value to Some of itself. -/
def integer_data (getInteger : Nat → Int) (field : Nat) : Option Int :=
  match getInteger field with
  | i => if i = MSI_NULL_INTEGER then none else some i

/-- Win32Bool into bool (src/ffi.rs lines 189-193): `self.0 != 0`. -/
def win32_bool_into (v : Int) : Bool :=
  v != 0

/-- Record::is_null (src/ffi.rs lines 121-123): converts the raw Win32Bool
i32 returned by MsiRecordIsNull (modelled by the oracle) via Into<bool>. -/
def is_null (isNullRaw : Nat → Int) (field : Nat) : Bool :=
  win32_bool_into (isNullRaw field)

/-- Record::format_text (src/ffi.rs lines 125-158), instrumented with the
list of engine calls issued, each as (installHandle, recordHandle, capacity).
Same two-call protocol as string_data, but against MsiFormatRecord with
MsiHandle::default() (the zero handle) as the install-context handle. -/
def format_text (recordHandle : Nat) (o : Nat → GetStringReply) :
    StrResult × List (Nat × Nat × Nat) :=
  let r1 := o 0
  if r1.ret ≠ ERROR_MORE_DATA then
    (.errorCode r1.ret, [(0, recordHandle, 0)])
  else
    let cap := (r1.len + 1) % 2 ^ 32
    let r2 := o cap
    if r2.ret ≠ ERROR_SUCCESS then
      (.errorCode r2.ret, [(0, recordHandle, 0), (0, recordHandle, cap)])
    else
      let bytes := (bufferAfter cap r2.buf).take r2.len
      match from_utf8 bytes with
      | some s => (.ok s, [(0, recordHandle, 0), (0, recordHandle, cap)])
      | none => (.utf8Error, [(0, recordHandle, 0), (0, recordHandle, cap)])

/-- UTF-8 bytes of the placeholder text "(record)" used by Display for
Record (src/ffi.rs line 170). -/
def recordPlaceholder : List Nat := [40, 114, 101, 99, 111, 114, 100, 41]

/-- Display for Record (src/ffi.rs lines 168-173):
`self.format_text().unwrap_or_else(|_| "(record)".to_owned())`. -/
def record_display (recordHandle : Nat) (o : Nat → GetStringReply) : List Nat :=
  match (format_text recordHandle o).1 with
  | .ok s => s
  | .errorCode _ => recordPlaceholder
  | .utf8Error => recordPlaceholder

namespace MessageType

/-- MessageType::FatalExit (src/ffi.rs line 222). -/
def FatalExit : Nat := 0x00000000

/-- MessageType::Error (src/ffi.rs line 223). -/
def Error : Nat := 0x01000000

/-- MessageType::Warning (src/ffi.rs line 224). -/
def Warning : Nat := 0x02000000

/-- MessageType::User (src/ffi.rs line 225). -/
def User : Nat := 0x03000000

/-- MessageType::Info (src/ffi.rs line 226). -/
def Info : Nat := 0x04000000

/-- MessageType::ActionStart (src/ffi.rs line 227). -/
def ActionStart : Nat := 0x08000000

/-- MessageType::ActionData (src/ffi.rs line 228). -/
def ActionData : Nat := 0x09000000

/-- MessageType::CommonData (src/ffi.rs line 229). -/
def CommonData : Nat := 0x0B000000

/-- MessageType::Initialize (src/ffi.rs line 230). -/
def Initialize : Nat := 0x0C000000

/-- MessageType::Terminate (src/ffi.rs line 231). -/
def Terminate : Nat := 0x0D000000

/-- MessageType::InstallStart (src/ffi.rs line 232). -/
def InstallStart : Nat := 0x1A000000

/-- MessageType::InstallEnd (src/ffi.rs line 233). -/
def InstallEnd : Nat := 0x1B000000

end MessageType

/-- The twelve MessageType discriminant values, in source order. -/
def messageTypeValues : List Nat :=
  [MessageType.FatalExit, MessageType.Error, MessageType.Warning,
   MessageType.User, MessageType.Info, MessageType.ActionStart,
   MessageType.ActionData, MessageType.CommonData, MessageType.Initialize,
   MessageType.Terminate, MessageType.InstallStart, MessageType.InstallEnd]

/-- The filter mask built in set_external_handler (src/ffi.rs lines
283-294): the left-to-right bitwise OR of the twelve MessageType values. -/
def handlerFilter : Nat :=
  MessageType.FatalExit ||| MessageType.Error ||| MessageType.Warning |||
  MessageType.User ||| MessageType.Info ||| MessageType.ActionStart |||
  MessageType.ActionData ||| MessageType.CommonData ||| MessageType.Initialize |||
  MessageType.Terminate ||| MessageType.InstallStart ||| MessageType.InstallEnd

/-- UILevel (src/ffi.rs lines 250-258), with its u32 repr values. -/
inductive UILevel
  | default
  | none
  | basic
  | reduced
  | full
deriving DecidableEq

/-- Numeric repr of UILevel (Default = 1 and successors). -/
def UILevel.toRaw : UILevel → Nat
  | .default => 1
  | .none => 2
  | .basic => 3
  | .reduced => 4
  | .full => 5

/-- One native engine call issued by the session driver, with the
arguments the Rust code passes to it. -/
inductive EngineCall
  | setInternalUI (ui : Nat)
  | enableLog (mode : Nat) (path : String) (attributes : Nat)
  | setExternalHandler (filter : Nat)
  | installProduct (path : String) (commandLine : String)
deriving DecidableEq

/-- Crate error cases reachable from the session driver (src/lib.rs):
a raw engine status code, or CString::new rejecting an interior NUL. -/
inductive InstallError
  | engineCode (code : Nat)
  | nulError
deriving DecidableEq

/-- Result of the install driver. -/
inductive InstallResult
  | ok
  | error (e : InstallError)
deriving DecidableEq

/-- Whether a string contains an interior NUL character, the condition
under which CString::new fails. -/
def hasNul (s : String) : Bool :=
  s.toList.contains (Char.ofNat 0)

/-- The command line built by install (src/lib.rs line 73):
`properties.join(" ")`. -/
def command_line (properties : List String) : String :=
  String.intercalate " " properties

/-- ffi::set_internal_ui (src/ffi.rs lines 311-316): one MsiSetInternalUI
call, no failure path. -/
def set_internal_ui (ui : UILevel) : List EngineCall :=
  [.setInternalUI ui.toRaw]

/-- ffi::enable_log (src/ffi.rs lines 318-328): CString::new on the path,
then MsiEnableLog with VERBOSE = 0x1000 and attributes 0; success only on
ERROR_SUCCESS.  `ret` is the engine status (oracle). -/
def enable_log (path : String) (ret : Nat) : Option InstallError × List EngineCall :=
  if hasNul path then
    (some .nulError, [])
  else if ret = ERROR_SUCCESS then
    (Option.none, [.enableLog 0x1000 path 0])
  else
    (some (.engineCode ret), [.enableLog 0x1000 path 0])

/-- ffi::set_external_handler (src/ffi.rs lines 266-309): registers the
trampoline with the fixed handlerFilter mask via MsiSetExternalUIRecord;
success only on ERROR_SUCCESS.  `ret` is the engine status (oracle). -/
def set_external_handler (ret : Nat) : Option InstallError × List EngineCall :=
  if ret = ERROR_SUCCESS then
    (Option.none, [.setExternalHandler handlerFilter])
  else
    (some (.engineCode ret), [.setExternalHandler handlerFilter])

/-- ffi::install_package (src/ffi.rs lines 330-340): CString::new on the
path then the command line, then MsiInstallProduct; success only on
ERROR_SUCCESS.  `ret` is the engine status (oracle). -/
def install_package (path commandLine : String) (ret : Nat) :
    Option InstallError × List EngineCall :=
  if hasNul path then
    (some .nulError, [])
  else if hasNul commandLine then
    (some .nulError, [])
  else if ret = ERROR_SUCCESS then
    (Option.none, [.installProduct path commandLine])
  else
    (some (.engineCode ret), [.installProduct path commandLine])

/-- Engine status codes returned by the three fallible native calls the
session driver makes, in order. -/
structure EngineStatuses where
  enableLogRet : Nat
  setHandlerRet : Nat
  installRet : Nat
deriving DecidableEq

/-- install (src/lib.rs lines 67-88): builds the command line from the
properties, sets the internal UI level, optionally enables logging,
registers the external handler, then runs the blocking install; the first
failure aborts with its error.  Also returns the engine calls issued. -/
def install (path : String) (log : Option String) (ui : UILevel)
    (properties : List String) (eng : EngineStatuses) :
    InstallResult × List EngineCall :=
  let cmdLine := command_line properties
  let c1 := set_internal_ui ui
  let logStep : Option InstallError × List EngineCall :=
    match log with
    | some l => enable_log l eng.enableLogRet
    | Option.none => (Option.none, [])
  match logStep.1 with
  | some e => (.error e, c1 ++ logStep.2)
  | Option.none =>
    let hStep := set_external_handler eng.setHandlerRet
    match hStep.1 with
    | some e => (.error e, c1 ++ logStep.2 ++ hStep.2)
    | Option.none =>
      let pStep := install_package path cmdLine eng.installRet
      match pStep.1 with
      | some e => (.error e, c1 ++ logStep.2 ++ hStep.2 ++ pStep.2)
      | Option.none => (.ok, c1 ++ logStep.2 ++ hStep.2 ++ pStep.2)

/-- Result of the CLI main (src/bin/msitrace.rs lines 9-31). -/
inductive MainResult
  | ok
  | errNotFound
  | errCanonicalize
  | errInstall (e : InstallError)
deriving DecidableEq

/-- main (src/bin/msitrace.rs lines 9-31): checks that the package path
exists and returns a local NotFound error before anything else; then
canonicalizes it (filesystem I/O, modelled by the `canonical` oracle, None
when canonicalization fails), strips a leading extended-length prefix, and
calls install.  Log-path resolution against the current directory is pure
path-string glue and is modelled as passing the resolved log path through. -/
def main_run (pathExists : Bool) (canonical : Option String)
    (log : Option String) (ui : UILevel) (properties : List String)
    (eng : EngineStatuses) : MainResult × List EngineCall :=
  if !pathExists then
    (.errNotFound, [])
  else
    match canonical with
    | Option.none => (.errCanonicalize, [])
    | some c =>
      let path := if c.startsWith "\\\\?\\" then c.drop 4 else c
      match install path log ui properties eng with
      | (.ok, calls) => (.ok, calls)
      | (.error e, calls) => (.errInstall e, calls)

/-- Result of the clap property validator: Ok value, or a raw
ValueValidation error with a message. -/
inductive ValidateResult
  | ok (value : String)
  | err (msg : String)
deriving DecidableEq

/-- Number of occurrences of char `c` in `value`, the count produced by
Rust `value.match_indices(c).count()` for a single-char pattern. -/
def match_indices_count (value : String) (c : Char) : Nat :=
  value.toList.count c

/-- validate_property (src/bin/msitrace.rs lines 51-69): rejects the empty
string, then rejects any string whose count of '=' is not exactly one,
otherwise returns the string unchanged. -/
def validate_property (value : String) : ValidateResult :=
  if value.isEmpty then
    .err "property cannot be empty"
  else if match_indices_count value '=' ≠ 1 then
    .err "requires PROP= or PROP=VALUE"
  else
    .ok value

/-- Whether validate_property accepts the string. -/
def property_ok (value : String) : Bool :=
  match validate_property value with
  | .ok _ => true
  | .err _ => false

/-- C3: integer_data returns None exactly when the raw engine value is the
minimum 32-bit signed integer -0x80000000, and returns the exact raw value
(including 0 and other negatives, in particular -0x7FFFFFFF, the immediate
neighbour of the sentinel) otherwise; the check is an exact equality
against the sentinel literal. -/
theorem integer_data_sentinel (getInteger : Nat → Int) (field : Nat) :
    (integer_data getInteger field = Option.none ↔
      getInteger field = MSI_NULL_INTEGER) ∧
    (getInteger field ≠ MSI_NULL_INTEGER →
      integer_data getInteger field = some (getInteger field)) ∧
    MSI_NULL_INTEGER = -2147483648 ∧
    integer_data (fun _ => 0) 1 = some 0 ∧
    integer_data (fun _ => -2147483647) 1 = some (-2147483647) ∧
    integer_data (fun _ => -2147483648) 1 = Option.none := by
  refine ⟨?_, ?_, by decide, by decide, by decide, by decide⟩
  · simp only [integer_data]
    split_ifs with hi <;> simp [hi]
  · intro hi
    simp [integer_data, hi]

/-- Witness for integer_data_sentinel at a concrete oracle. -/
theorem integer_data_sentinel_witness :
    integer_data (fun _ => 42) 3 = some 42 :=
  (integer_data_sentinel (fun _ => 42) 3).2.1 (by decide)

/-- C10: is_null is true exactly when the raw Win32Bool value from the
engine is nonzero; any nonzero 32-bit value (1, 2, -1, ...) maps to true
and only 0 maps to false. -/
theorem is_null_nonzero (isNullRaw : Nat → Int) (field : Nat) :
    (is_null isNullRaw field = true ↔ isNullRaw field ≠ 0) ∧
    (is_null isNullRaw field = false ↔ isNullRaw field = 0) ∧
    is_null (fun _ => 1) 1 = true ∧
    is_null (fun _ => 2) 1 = true ∧
    is_null (fun _ => -1) 1 = true ∧
    is_null (fun _ => 0) 1 = false := by
  refine ⟨?_, ?_, by decide, by decide, by decide, by decide⟩ <;>
    simp [is_null, win32_bool_into]

/-- C4: the registration filter mask equals the bitwise OR of the twelve
documented MessageType constants, which are pairwise distinct, each of
which is subsumed by the mask; its value is 0x1F000000. -/
theorem handler_filter_mask :
    handlerFilter = List.foldl (fun a b => a ||| b) 0 messageTypeValues ∧
    messageTypeValues.Nodup ∧
    messageTypeValues.length = 12 ∧
    (messageTypeValues.all fun c => c ||| handlerFilter == handlerFilter) = true ∧
    handlerFilter = 0x1F000000 :=
  ⟨by decide, by decide, by decide, by decide, by decide⟩

/-- C7: the CLI property validator accepts a string exactly when it is
non-empty and contains exactly one equals sign; it rejects "A", "A=1=2"
and "" and accepts "A=" and "A=1". -/
theorem validate_property_spec :
    (∀ value : String,
      property_ok value =
        (!value.isEmpty && match_indices_count value '=' == 1)) ∧
    property_ok "A" = false ∧
    property_ok "A=1=2" = false ∧
    property_ok "" = false ∧
    property_ok "A=" = true ∧
    property_ok "A=1" = true := by
  refine ⟨?_, by decide, by decide, by decide, by decide, by decide⟩
  intro value
  by_cases he : value.isEmpty <;>
    by_cases hc : match_indices_count value '=' = 1 <;>
      simp [property_ok, validate_property, he, hc]

/-- C8: when the package path does not exist the CLI main returns the
local NotFound error, which is not success, and issues no engine call. -/
theorem main_run_not_found (canonical log : Option String) (ui : UILevel)
    (properties : List String) (eng : EngineStatuses) :
    main_run false canonical log ui properties eng = (.errNotFound, []) ∧
    MainResult.errNotFound ≠ MainResult.ok :=
  ⟨rfl, by decide⟩

/-- C1: string_data issues exactly two engine calls against the same
(handle, field) pair.  The first passes capacity 0; any status other than
ERROR_MORE_DATA is returned as that error code.  Otherwise the second call
passes capacity (reported length + 1); any status other than ERROR_SUCCESS
is returned as that error code; on success the result is exactly the
buffer truncated to the second call's own reported length, decoded as
UTF-8, with decode failure surfaced as the distinct utf8Error kind. -/
theorem string_data_two_call_protocol (h field : Nat) (o : Nat → GetStringReply) :
    ((o 0).ret ≠ ERROR_MORE_DATA →
      string_data h field o = (.errorCode (o 0).ret, [(h, field, 0)])) ∧
    ((o 0).ret = ERROR_MORE_DATA → (o 0).len + 1 < 2 ^ 32 →
      (string_data h field o).2 = [(h, field, 0), (h, field, (o 0).len + 1)] ∧
      ((o ((o 0).len + 1)).ret ≠ ERROR_SUCCESS →
        (string_data h field o).1 = .errorCode (o ((o 0).len + 1)).ret) ∧
      ((o ((o 0).len + 1)).ret = ERROR_SUCCESS →
        (string_data h field o).1 =
          match from_utf8 ((bufferAfter ((o 0).len + 1) (o ((o 0).len + 1)).buf).take
              (o ((o 0).len + 1)).len) with
          | some s => StrResult.ok s
          | Option.none => StrResult.utf8Error)) ∧
    (∀ c, StrResult.utf8Error ≠ StrResult.errorCode c) := by
  refine ⟨?_, ?_, fun c => by simp⟩
  · intro hne
    simp [string_data, hne]
  · intro hmore hlt
    have hcap : ((o 0).len + 1) % 2 ^ 32 = (o 0).len + 1 := Nat.mod_eq_of_lt hlt
    by_cases hr2 : (o ((o 0).len + 1)).ret = ERROR_SUCCESS
    · refine ⟨?_, fun hne => absurd hr2 hne, fun _ => ?_⟩ <;>
        · simp only [string_data, hmore, hcap, ne_eq, not_true_eq_false, if_false,
            hr2, not_false_eq_true, if_true]
          cases hfu : from_utf8 ((bufferAfter ((o 0).len + 1)
              (o ((o 0).len + 1)).buf).take (o ((o 0).len + 1)).len) <;>
            simp [hfu]
    · refine ⟨?_, fun _ => ?_, fun hs => absurd hs hr2⟩ <;>
        simp only [string_data, hmore, hcap, ne_eq, not_true_eq_false, if_false,
          hr2, not_false_eq_true, if_true]

/-- Engine oracle for the string_data witness: a field whose first call
reports length 5 but whose second call reports the smaller final length 2
and writes the bytes of "Hi". -/
def sdOracle : Nat → GetStringReply := fun cap =>
  if cap = 0 then ⟨234, 5, []⟩
  else if cap = 6 then ⟨0, 2, [72, 105]⟩
  else ⟨0, 0, []⟩

/-- Witness for string_data_two_call_protocol at a concrete oracle. -/
theorem string_data_two_call_protocol_witness :
    (string_data 7 1 sdOracle).2 = [(7, 1, 0), (7, 1, 6)] ∧
    (string_data 7 1 sdOracle).1 = .ok [72, 105] := by
  have h := (string_data_two_call_protocol 7 1 sdOracle).2.1 (by decide) (by decide)
  refine ⟨h.1, ?_⟩
  have h2 := h.2.2 (by decide)
  rw [h2]
  decide

/-- Helper: format_text issues either one or two engine calls, all against
install-context handle 0 and the given record handle. -/
lemma format_text_calls (rh : Nat) (o : Nat → GetStringReply) :
    (format_text rh o).2 = [(0, rh, 0)] ∨
    (format_text rh o).2 = [(0, rh, 0), (0, rh, ((o 0).len + 1) % 2 ^ 32)] := by
  simp only [format_text]
  split
  · left; rfl
  · split
    · right; rfl
    · split <;> (right; rfl)

/-- C9: the record display operation is infallible: whenever format_text
fails, with an engine error code or a UTF-8 decode error, the display is
the fixed placeholder "(record)"; on success it is the formatted text; and
every MsiFormatRecord call is issued against the null/default
install-context handle 0. -/
theorem record_display_infallible (rh : Nat) (o : Nat → GetStringReply) :
    ((format_text rh o).1 = .utf8Error → record_display rh o = recordPlaceholder) ∧
    (∀ c, (format_text rh o).1 = .errorCode c →
      record_display rh o = recordPlaceholder) ∧
    (∀ s, (format_text rh o).1 = .ok s → record_display rh o = s) ∧
    (∀ call ∈ (format_text rh o).2, call.1 = 0) := by
  refine ⟨?_, ?_, ?_, ?_⟩
  · intro hft
    simp [record_display, hft]
  · intro c hft
    simp [record_display, hft]
  · intro s hft
    simp [record_display, hft]
  · intro call hcall
    rcases format_text_calls rh o with hl | hl <;>
      · rw [hl] at hcall
        rcases List.mem_cons.1 hcall with rfl | hcall2 <;>
          simp_all

/-- Engine oracle for the failing display witness: every MsiFormatRecord
call returns status 1603. -/
def fmtFailOracle : Nat → GetStringReply := fun _ => ⟨1603, 0, []⟩

/-- Engine oracle for the succeeding display witness: the field formats to
the single byte of "H". -/
def fmtOkOracle : Nat → GetStringReply := fun cap =>
  if cap = 0 then ⟨234, 1, []⟩ else ⟨0, 1, [72]⟩

/-- Witness for record_display_infallible at concrete oracles: the failing
oracle yields the placeholder, the succeeding oracle yields the text, and
the logged call of the failing run targets install-context handle 0. -/
theorem record_display_infallible_witness :
    record_display 5 fmtFailOracle = recordPlaceholder ∧
    record_display 5 fmtOkOracle = [72] ∧
    ((0, 5, 0) : Nat × Nat × Nat).1 = 0 :=
  ⟨(record_display_infallible 5 fmtFailOracle).2.1 1603 (by decide),
   (record_display_infallible 5 fmtOkOracle).2.2.1 [72] (by decide),
   (record_display_infallible 5 fmtFailOracle).2.2.2 (0, 5, 0) (by decide)⟩

/-- Helper: every engine call issued by install is the UI call, a log
call, the handler registration, or the product install with the original
path and the joined command line. -/
lemma install_calls_cases (path : String) (log : Option String) (ui : UILevel)
    (properties : List String) (eng : EngineStatuses) :
    ∀ c ∈ (install path log ui properties eng).2,
      c = .setInternalUI ui.toRaw ∨
      (∃ l, c = .enableLog 0x1000 l 0) ∨
      c = .setExternalHandler handlerFilter ∨
      c = .installProduct path (command_line properties) := by
  intro c hc
  cases log <;>
    simp only [install, set_internal_ui, enable_log, set_external_handler,
      install_package] at hc <;>
    split_ifs at hc <;>
    simp at hc <;>
    tauto

/-- C6: any MsiInstallProduct call issued by install carries the command
line obtained by joining the property tokens; joining is the single-space
order-preserving concatenation, and the two-token list ["A=1", "B=2"]
produces exactly "A=1 B=2". -/
theorem install_join_properties :
    (∀ path log ui properties eng p cl,
      EngineCall.installProduct p cl ∈ (install path log ui properties eng).2 →
      cl = command_line properties) ∧
    command_line ["A=1", "B=2"] = "A=1 B=2" ∧
    (∀ a b : String, command_line [a, b] = a ++ " " ++ b) := by
  refine ⟨?_, by decide, fun a b => rfl⟩
  intro path log ui properties eng p cl hmem
  rcases install_calls_cases path log ui properties eng _ hmem with
    h | ⟨l, h⟩ | h | h
  · exact absurd h (by simp)
  · exact absurd h (by simp)
  · exact absurd h (by simp)
  · cases h
    rfl

/-- Witness for install_join_properties at a concrete run. -/
theorem install_join_properties_witness :
    "A=1 B=2" = command_line ["A=1", "B=2"] :=
  install_join_properties.1 "p" Option.none .default ["A=1", "B=2"] ⟨0, 0, 0⟩
    "p" "A=1 B=2" (by decide)

/-- Witness for handler_filter_mask: the mask value. -/
theorem handler_filter_mask_witness : handlerFilter = 0x1F000000 :=
  handler_filter_mask.2.2.2.2

/-- Witness for validate_property_spec at a concrete input. -/
theorem validate_property_spec_witness : property_ok "A=1" = true :=
  validate_property_spec.2.2.2.2.2

/-- Witness for main_run_not_found at concrete arguments. -/
theorem main_run_not_found_witness :
    main_run false Option.none Option.none .default [] ⟨0, 0, 0⟩ =
      (.errNotFound, []) :=
  (main_run_not_found Option.none Option.none .default [] ⟨0, 0, 0⟩).1

/-- Witness for is_null_nonzero at a concrete oracle. -/
theorem is_null_nonzero_witness : is_null (fun _ => 2) 1 = true :=
  (is_null_nonzero (fun _ => 2) 1).2.2.2.1

end Msitrace
